import Mathlib

/-!
Shallow embedding of the covered-option contract (src/src/contract.rs).

The contract keeps at most one `State` record in storage under a single key
(`STATE`).  Each entry point is modelled as a function that threads the
storage slot (`Store = Option State`) through the statements of the Rust
source, so that an early `return Err(..)` yields the storage as it stood at
that point.  Machine integers (`u64` block heights, `Uint128` amounts) are
modelled as `Nat`; no arithmetic is performed on them, only comparisons.
-/

/-- A `cosmwasm_std::Coin`: a denomination with a `Uint128` amount. -/
structure Coin where
  denom : String
  amount : Nat
deriving DecidableEq, Repr

/-- The persisted option record (`crate::state::State`). -/
structure State where
  creator : String
  owner : String
  collateral : List Coin
  counter_offer : List Coin
  expires : Nat
deriving DecidableEq, Repr

/-- The single storage slot holding at most one record. -/
abbrev Store := Option State

/-- Standard-library errors surfaced by the store (`STATE.load` on an empty
slot fails with a not-found error). -/
inductive StdError where
  | notFound
deriving DecidableEq, Repr

/-- The error taxonomy of `crate::error::ContractError`. -/
inductive ContractError where
  | Std (err : StdError)
  | Unauthorized
  | Expired
  | DiffCounterOffer (counter_offer : String)
  | CustomError (val : String)
deriving DecidableEq, Repr

/-- A `BankMsg::Send` settlement instruction: pay `amount` to `to_address`. -/
structure BankMsg where
  to_address : String
  amount : List Coin
deriving DecidableEq, Repr

/-- A `cosmwasm_std::Response`: settlement messages plus log attributes. -/
structure Response where
  messages : List BankMsg
  attributes : List (String × String)
deriving DecidableEq, Repr

/-- `cosmwasm_std::MessageInfo`: the caller identity and the attached funds. -/
structure MessageInfo where
  sender : String
  funds : List Coin
deriving DecidableEq, Repr

/-- The instantiate payload (`crate::msg::InstantiateMsg`). -/
structure InstantiateMsg where
  counter_offer : List Coin
  expires : Nat
deriving DecidableEq, Repr

/-- The execute payload (`crate::msg::ExecuteMsg`). -/
inductive ExecuteMsg where
  | Transfer (recipient : String)
  | Execute
  | Burn
deriving DecidableEq, Repr

/-- Rust `Debug` rendering of one `Coin`, as produced by `format!("\x7b:?\x7d", ..)`. -/
def coinDebug (c : Coin) : String :=
  "Coin \x7b denom: \"" ++ c.denom ++ "\", amount: Uint128(" ++ toString c.amount ++ ") \x7d"

/-- Rust `Debug` rendering of a `Vec<Coin>`. -/
def coinsDebug (cs : List Coin) : String :=
  "[" ++ String.intercalate (", ") (cs.map coinDebug) ++ "]"

/-- `instantiate` (contract.rs lines 17-37): reject a non-future expiry, then
build and save the record.  There is no presence check: a record already in
the slot is overwritten.  The `set_contract_version` bookkeeping writes a
different key and is outside the modelled slot. -/
def instantiate (store : Store) (height : Nat) (info : MessageInfo)
    (msg : InstantiateMsg) : Store × Except ContractError Response :=
  if msg.expires ≤ height then
    (store, .error .Expired)
  else
    (some ⟨info.sender, info.sender, info.funds, msg.counter_offer, msg.expires⟩,
     .ok ⟨[], []⟩)

/-- `try_transfer` (contract.rs lines 53-69): `STATE.update` loads the record
(not-found if absent), rejects a non-owner caller, otherwise saves the record
with the new owner and logs the method name and the new owner. -/
def try_transfer (store : Store) (info : MessageInfo) (recipient : String) :
    Store × Except ContractError Response :=
  match store with
  | none => (none, .error (.Std .notFound))
  | some state =>
    if info.sender ≠ state.owner then
      (some state, .error .Unauthorized)
    else
      (some ⟨state.creator, recipient, state.collateral, state.counter_offer, state.expires⟩,
       .ok ⟨[], [("method", "try_transfer"), ("new owner", recipient)]⟩)

/-- `try_execute` (contract.rs lines 71-98): load, owner check, expiry check,
funds check (ordered `Vec` equality against `counter_offer`); on success emit
the two settlement messages, remove the record and log the method name. -/
def try_execute (store : Store) (height : Nat) (info : MessageInfo) :
    Store × Except ContractError Response :=
  match store with
  | none => (none, .error (.Std .notFound))
  | some state =>
    if info.sender ≠ state.owner then
      (some state, .error .Unauthorized)
    else if state.expires ≤ height then
      (some state, .error .Expired)
    else if info.funds ≠ state.counter_offer then
      (some state, .error (.DiffCounterOffer (coinsDebug state.counter_offer)))
    else
      (none,
       .ok ⟨[⟨state.creator, state.counter_offer⟩, ⟨state.owner, state.collateral⟩],
            [("method", "try_execute")]⟩)

/-- `try_burn` (contract.rs lines 100-118): load, expiry check, empty-funds
check; on success emit one settlement message paying the collateral to the
creator and log the method name.  The source never calls `STATE.remove` here,
so the record stays in the slot. -/
def try_burn (store : Store) (height : Nat) (info : MessageInfo) :
    Store × Except ContractError Response :=
  match store with
  | none => (none, .error (.Std .notFound))
  | some state =>
    if height < state.expires then
      (some state, .error (.CustomError ("Option not yet expired")))
    else if info.funds ≠ [] then
      (some state, .error (.CustomError ("dont send funds with burn")))
    else
      (some state,
       .ok ⟨[⟨state.creator, state.collateral⟩], [("method", "try_burn")]⟩)

/-- `execute` dispatcher (contract.rs lines 40-51). -/
def execute (store : Store) (height : Nat) (info : MessageInfo) (msg : ExecuteMsg) :
    Store × Except ContractError Response :=
  match msg with
  | .Transfer recipient => try_transfer store info recipient
  | .Execute => try_execute store height info
  | .Burn => try_burn store height info

/-- `query_config` (contract.rs lines 127-130): load the record or fail
not-found; no mutation. -/
def query_config (store : Store) : Except StdError State :=
  match store with
  | none => .error .notFound
  | some state => .ok state

/-- C1 (code-bug evidence): at a state holding a record, burn at height 200000
(past expiry 100000) with empty attached funds succeeds and pays the full
collateral to the creator, but the record is still in the slot afterwards:
`try_burn` never removes it, so the subsequent query still succeeds and a
second burn would pay the collateral again, contrary to the stated deletion. -/
theorem burn_leaves_record_in_storage :
    try_burn (some ⟨"creator", "creator", [⟨"BTC", 1⟩], [⟨"ETH", 40⟩], 100000⟩)
        200000 ⟨"anyone", []⟩ =
      (some ⟨"creator", "creator", [⟨"BTC", 1⟩], [⟨"ETH", 40⟩], 100000⟩,
       .ok ⟨[⟨"creator", [⟨"BTC", 1⟩]⟩], [("method", "try_burn")]⟩) ∧
    query_config
        (try_burn (some ⟨"creator", "creator", [⟨"BTC", 1⟩], [⟨"ETH", 40⟩], 100000⟩)
          200000 ⟨"anyone", []⟩).1 =
      .ok ⟨"creator", "creator", [⟨"BTC", 1⟩], [⟨"ETH", 40⟩], 100000⟩ :=
  ⟨rfl, rfl⟩

/-- C2 (counterexample): with a record already present in the slot, create
with a future expiry does not fail — it succeeds and overwrites the stored
record, so the record is not unchanged. -/
theorem instantiate_overwrites_existing_record :
    (instantiate (some ⟨"alice", "bob", [⟨"BTC", 1⟩], [⟨"ETH", 40⟩], 100⟩) 0
        ⟨"carol", [⟨"ATOM", 5⟩]⟩ ⟨[⟨"ETH", 7⟩], 50⟩).2 = .ok ⟨[], []⟩ ∧
    (instantiate (some ⟨"alice", "bob", [⟨"BTC", 1⟩], [⟨"ETH", 40⟩], 100⟩) 0
        ⟨"carol", [⟨"ATOM", 5⟩]⟩ ⟨[⟨"ETH", 7⟩], 50⟩).1 =
      some ⟨"carol", "carol", [⟨"ATOM", 5⟩], [⟨"ETH", 7⟩], 50⟩ ∧
    (some (⟨"carol", "carol", [⟨"ATOM", 5⟩], [⟨"ETH", 7⟩], 50⟩ : State)) ≠
      some ⟨"alice", "bob", [⟨"BTC", 1⟩], [⟨"ETH", 40⟩], 100⟩ := by
  refine ⟨rfl, rfl, by decide⟩

/-- C2 (amended): create performs no presence check: for every storage state,
including one already holding a record, create with a future expiry succeeds
and overwrites the slot with the freshly built record. -/
theorem instantiate_ignores_existing_record (store : Store) (height : Nat)
    (info : MessageInfo) (msg : InstantiateMsg) (h : height < msg.expires) :
    instantiate store height info msg =
      (some ⟨info.sender, info.sender, info.funds, msg.counter_offer, msg.expires⟩,
       .ok ⟨[], []⟩) := by
  unfold instantiate
  rw [if_neg (by omega)]

/-- Witness for the amended C2 theorem at a concrete occupied store. -/
theorem instantiate_ignores_existing_record_witness :
    instantiate (some ⟨"alice", "bob", [], [], 100⟩) 0 ⟨"carol", []⟩ ⟨[], 50⟩ =
      (some ⟨"carol", "carol", [], [], 50⟩, .ok ⟨[], []⟩) :=
  instantiate_ignores_existing_record _ 0 _ _ (by decide)

/-- C3 (counterexample): attached funds that are a permutation of the stored
counter-offer — hence equal as multisets — are rejected with DiffCounterOffer,
because the source compares the two fund lists with ordered Vec equality. -/
theorem permuted_funds_rejected :
    List.Perm [(⟨"B", 2⟩ : Coin), ⟨"A", 1⟩] [⟨"A", 1⟩, ⟨"B", 2⟩] ∧
    (try_execute (some ⟨"creator", "creator", [⟨"BTC", 1⟩], [⟨"A", 1⟩, ⟨"B", 2⟩], 100⟩) 0
        ⟨"creator", [⟨"B", 2⟩, ⟨"A", 1⟩]⟩).2 =
      .error (.DiffCounterOffer (coinsDebug [⟨"A", 1⟩, ⟨"B", 2⟩])) := by
  refine ⟨by decide, rfl⟩

/-- C3 (amended): the funds-match check of exercise is ordered list equality:
for the owner calling before expiry, exercise fails with DiffCounterOffer
exactly when the attached funds differ from the stored counter-offer as
ordered lists of (denomination, amount) pairs. -/
theorem funds_check_is_list_equality (state : State) (height : Nat) (info : MessageInfo)
    (howner : info.sender = state.owner) (hheight : height < state.expires) :
    ((try_execute (some state) height info).2 =
        .error (.DiffCounterOffer (coinsDebug state.counter_offer)) ↔
      info.funds ≠ state.counter_offer) := by
  simp only [try_execute]
  rw [if_neg (by simp [howner]), if_neg (by omega)]
  by_cases hf : info.funds = state.counter_offer
  · simp [hf]
  · simp [hf]

/-- Witness for the amended C3 theorem at a concrete input. -/
theorem funds_check_is_list_equality_witness :
    ((try_execute (some ⟨"c", "o", [], [⟨"ETH", 40⟩], 10⟩) 0 ⟨"o", []⟩).2 =
        .error (.DiffCounterOffer (coinsDebug [⟨"ETH", 40⟩])) ↔
      ([] : List Coin) ≠ [⟨"ETH", 40⟩]) :=
  funds_check_is_list_equality ⟨"c", "o", [], [⟨"ETH", 40⟩], 10⟩ 0 ⟨"o", []⟩ rfl (by decide)

/-- C4: when every guard of exercise passes (record exists, caller is the
owner, height below expiry, funds equal the counter-offer), the result is a
success with exactly two settlement messages in order — counter-offer to the
creator, then collateral to the owner — and the record is removed, so a
subsequent exercise fails with a not-found storage error and a subsequent
query fails not-found. -/
theorem try_execute_success (state : State) (height : Nat) (info : MessageInfo)
    (howner : info.sender = state.owner) (hheight : height < state.expires)
    (hfunds : info.funds = state.counter_offer) :
    try_execute (some state) height info =
      (none,
       .ok ⟨[⟨state.creator, state.counter_offer⟩, ⟨state.owner, state.collateral⟩],
            [("method", "try_execute")]⟩) ∧
    (try_execute none height info).2 = .error (.Std .notFound) ∧
    query_config none = .error .notFound := by
  refine ⟨?_, rfl, rfl⟩
  simp only [try_execute]
  rw [if_neg (by simp [howner]), if_neg (by omega), if_neg (by simp [hfunds])]

/-- Witness for C4's theorem at the concrete scenario of the source tests. -/
theorem try_execute_success_witness :
    try_execute (some ⟨"creator", "creator", [⟨"BTC", 1⟩], [⟨"ETH", 40⟩], 100000⟩)
        12345 ⟨"creator", [⟨"ETH", 40⟩]⟩ =
      (none,
       .ok ⟨[⟨"creator", [⟨"ETH", 40⟩]⟩, ⟨"creator", [⟨"BTC", 1⟩]⟩],
            [("method", "try_execute")]⟩) ∧
    (try_execute none 12345 ⟨"creator", [⟨"ETH", 40⟩]⟩).2 = .error (.Std .notFound) ∧
    query_config none = .error .notFound :=
  try_execute_success ⟨"creator", "creator", [⟨"BTC", 1⟩], [⟨"ETH", 40⟩], 100000⟩
    12345 ⟨"creator", [⟨"ETH", 40⟩]⟩ rfl (by decide) rfl

/-- C5 (counterexample): a non-owner caller at a height past expiry gets
Unauthorized, not Expired — the owner check runs first, so exercise does not
fail with Expired "regardless of caller" once the height passes expiry. -/
theorem expired_nonowner_gets_unauthorized :
    (try_execute (some ⟨"creator", "someone", [⟨"BTC", 1⟩], [⟨"ETH", 40⟩], 100000⟩)
        200000 ⟨"mallory", [⟨"ETH", 40⟩]⟩).2 = .error .Unauthorized ∧
    Except.error (ε := ContractError) (α := Response) .Unauthorized ≠
      .error .Expired := by
  refine ⟨rfl, by simp⟩

/-- C5 (amended): exercise checks its guards in order with the first failure
winning: a caller different from the owner gets Unauthorized regardless of
height and funds, and the owner calling at or past expiry gets Expired
regardless of funds. -/
theorem try_execute_guard_order (state : State) (height : Nat) (info : MessageInfo) :
    (info.sender ≠ state.owner →
      (try_execute (some state) height info).2 = .error .Unauthorized) ∧
    (info.sender = state.owner → state.expires ≤ height →
      (try_execute (some state) height info).2 = .error .Expired) := by
  constructor
  · intro h
    simp only [try_execute]
    rw [if_pos h]
  · intro h1 h2
    simp only [try_execute]
    rw [if_neg (by simp [h1]), if_pos h2]

/-- Witness for C5's amended theorem at concrete inputs. -/
theorem try_execute_guard_order_witness :
    (try_execute (some ⟨"c", "o", [], [], 10⟩) 0 ⟨"x", []⟩).2 = .error .Unauthorized ∧
    (try_execute (some ⟨"c", "o", [], [], 10⟩) 10 ⟨"o", [⟨"ETH", 1⟩]⟩).2 = .error .Expired :=
  ⟨(try_execute_guard_order ⟨"c", "o", [], [], 10⟩ 0 ⟨"x", []⟩).1 (by decide),
   (try_execute_guard_order ⟨"c", "o", [], [], 10⟩ 10 ⟨"o", [⟨"ETH", 1⟩]⟩).2 rfl (by decide)⟩

/-- C6: create fails with Expired exactly when the requested expiry is at or
below the current height; with a strictly future expiry it succeeds, persists
the record built field-by-field from the inputs (creator and owner both the
caller, collateral the attached funds), and emits no settlement messages. -/
theorem instantiate_spec (store : Store) (height : Nat) (info : MessageInfo)
    (msg : InstantiateMsg) :
    ((instantiate store height info msg).2 = .error .Expired ↔ msg.expires ≤ height) ∧
    (height < msg.expires →
      instantiate store height info msg =
        (some ⟨info.sender, info.sender, info.funds, msg.counter_offer, msg.expires⟩,
         .ok ⟨[], []⟩)) := by
  unfold instantiate
  by_cases h : msg.expires ≤ height
  · rw [if_pos h]
    exact ⟨by simp [h], fun hlt => ((Nat.lt_irrefl _ (Nat.lt_of_lt_of_le hlt h)).elim)⟩
  · rw [if_neg h]
    refine ⟨by simp [h], fun _ => rfl⟩

/-- Witness for C6's theorem at the concrete scenario of the source tests. -/
theorem instantiate_spec_witness :
    ((instantiate none 12345 ⟨"creator", [⟨"BTC", 1⟩]⟩ ⟨[⟨"ETH", 40⟩], 100000⟩).2 =
        .error .Expired ↔ (100000 : Nat) ≤ 12345) ∧
    ((12345 : Nat) < 100000 →
      instantiate none 12345 ⟨"creator", [⟨"BTC", 1⟩]⟩ ⟨[⟨"ETH", 40⟩], 100000⟩ =
        (some ⟨"creator", "creator", [⟨"BTC", 1⟩], [⟨"ETH", 40⟩], 100000⟩,
         .ok ⟨[], []⟩)) :=
  instantiate_spec none 12345 ⟨"creator", [⟨"BTC", 1⟩]⟩ ⟨[⟨"ETH", 40⟩], 100000⟩

/-- C7: burn performs no ownership check — both conjuncts hold for every
caller and the first regardless of funds: before expiry burn fails with the
message "Option not yet expired"; at or past expiry with non-empty attached
funds it fails with "dont send funds with burn".  The expiry guard runs
before the funds guard, since the first conjunct holds for arbitrary funds. -/
theorem try_burn_guards (state : State) (height : Nat) (info : MessageInfo) :
    (height < state.expires →
      (try_burn (some state) height info).2 =
        .error (.CustomError ("Option not yet expired"))) ∧
    (state.expires ≤ height → info.funds ≠ [] →
      (try_burn (some state) height info).2 =
        .error (.CustomError ("dont send funds with burn"))) := by
  constructor
  · intro h
    simp only [try_burn]
    rw [if_pos h]
  · intro h1 h2
    simp only [try_burn]
    rw [if_neg (by omega), if_pos h2]

/-- Witness for C7's theorem at concrete inputs, with a non-owner caller and
non-empty funds in the pre-expiry case. -/
theorem try_burn_guards_witness :
    (try_burn (some ⟨"creator", "owner", [⟨"BTC", 1⟩], [], 100⟩) 99
        ⟨"random", [⟨"ADA", 136⟩]⟩).2 =
      .error (.CustomError ("Option not yet expired")) ∧
    (try_burn (some ⟨"creator", "owner", [⟨"BTC", 1⟩], [], 100⟩) 100
        ⟨"random", [⟨"ADA", 136⟩]⟩).2 =
      .error (.CustomError ("dont send funds with burn")) :=
  ⟨(try_burn_guards ⟨"creator", "owner", [⟨"BTC", 1⟩], [], 100⟩ 99
      ⟨"random", [⟨"ADA", 136⟩]⟩).1 (by decide),
   (try_burn_guards ⟨"creator", "owner", [⟨"BTC", 1⟩], [], 100⟩ 100
      ⟨"random", [⟨"ADA", 136⟩]⟩).2 (by decide) (by decide)⟩

/-- C8: atomicity on failure: whenever instantiate or any dispatched execute
operation (transfer, exercise, burn) returns an error, the storage slot after
the call equals the slot before it; the error branch carries no response, so
no settlement instructions are emitted. -/
theorem error_leaves_store_unchanged (store : Store) (height : Nat) (info : MessageInfo)
    (imsg : InstantiateMsg) (emsg : ExecuteMsg) (e1 e2 : ContractError) :
    ((instantiate store height info imsg).2 = .error e1 →
      (instantiate store height info imsg).1 = store) ∧
    ((execute store height info emsg).2 = .error e2 →
      (execute store height info emsg).1 = store) := by
  constructor
  · intro h
    unfold instantiate at h ⊢
    by_cases hc : imsg.expires ≤ height
    · rw [if_pos hc]
    · rw [if_neg hc] at h
      simp at h
  · intro h
    cases emsg with
    | Transfer recipient =>
      cases store with
      | none => rfl
      | some st =>
        simp only [execute, try_transfer] at h ⊢
        by_cases hc : info.sender ≠ st.owner
        · rw [if_pos hc]
        · rw [if_neg hc] at h
          simp at h
    | Execute =>
      cases store with
      | none => rfl
      | some st =>
        simp only [execute, try_execute] at h ⊢
        by_cases h1 : info.sender ≠ st.owner
        · rw [if_pos h1]
        · rw [if_neg h1] at h ⊢
          by_cases h2 : st.expires ≤ height
          · rw [if_pos h2]
          · rw [if_neg h2] at h ⊢
            by_cases h3 : info.funds ≠ st.counter_offer
            · rw [if_pos h3]
            · rw [if_neg h3] at h
              simp at h
    | Burn =>
      cases store with
      | none => rfl
      | some st =>
        simp only [execute, try_burn] at h ⊢
        by_cases h1 : height < st.expires
        · rw [if_pos h1]
        · rw [if_neg h1] at h ⊢
          by_cases h2 : info.funds ≠ []
          · rw [if_pos h2]
          · rw [if_neg h2]

/-- Witness for C8's theorem: a failing create on an occupied slot and a
failing exercise on an empty slot both leave the slot as it was. -/
theorem error_leaves_store_unchanged_witness :
    (instantiate (some ⟨"a", "a", [], [], 5⟩) 10 ⟨"b", []⟩ ⟨[], 5⟩).1 =
      some ⟨"a", "a", [], [], 5⟩ ∧
    (execute none 0 ⟨"b", []⟩ .Execute).1 = none :=
  ⟨(error_leaves_store_unchanged (some ⟨"a", "a", [], [], 5⟩) 10 ⟨"b", []⟩ ⟨[], 5⟩
      .Burn .Expired .Expired).1 rfl,
   (error_leaves_store_unchanged none 0 ⟨"b", []⟩ ⟨[], 5⟩
      .Execute .Expired (.Std .notFound)).2 rfl⟩

/-- C9: transfer by the owner of an existing record succeeds, replaces the
owner field with the recipient while keeping creator, collateral,
counter-offer and expiry unchanged, and logs the method name and the new
owner; transfer by any other caller fails with Unauthorized. -/
theorem try_transfer_spec (state : State) (info : MessageInfo) (recipient : String) :
    (info.sender = state.owner →
      try_transfer (some state) info recipient =
        (some ⟨state.creator, recipient, state.collateral, state.counter_offer, state.expires⟩,
         .ok ⟨[], [("method", "try_transfer"), ("new owner", recipient)]⟩)) ∧
    (info.sender ≠ state.owner →
      (try_transfer (some state) info recipient).2 = .error .Unauthorized) := by
  constructor
  · intro h
    simp only [try_transfer]
    rw [if_neg (by simp [h])]
  · intro h
    simp only [try_transfer]
    rw [if_pos h]

/-- Witness for C9's theorem at the concrete scenario of the source tests. -/
theorem try_transfer_spec_witness :
    try_transfer (some ⟨"creator", "creator", [⟨"BTC", 1⟩], [⟨"ETH", 40⟩], 100000⟩)
        ⟨"creator", []⟩ "someone" =
      (some ⟨"creator", "someone", [⟨"BTC", 1⟩], [⟨"ETH", 40⟩], 100000⟩,
       .ok ⟨[], [("method", "try_transfer"), ("new owner", "someone")]⟩) ∧
    (try_transfer (some ⟨"creator", "creator", [⟨"BTC", 1⟩], [⟨"ETH", 40⟩], 100000⟩)
        ⟨"anyone", []⟩ "anyone").2 = .error .Unauthorized :=
  ⟨(try_transfer_spec ⟨"creator", "creator", [⟨"BTC", 1⟩], [⟨"ETH", 40⟩], 100000⟩
      ⟨"creator", []⟩ "someone").1 rfl,
   (try_transfer_spec ⟨"creator", "creator", [⟨"BTC", 1⟩], [⟨"ETH", 40⟩], 100000⟩
      ⟨"anyone", []⟩ "anyone").2 (by decide)⟩

/-- C10: transfer places no restriction on the recipient: transfer by the
owner to the current owner succeeds and leaves the stored record identical to
before, and transfer by the owner to an arbitrary recipient string (the
creator included) succeeds under the same owner-only guard. -/
theorem try_transfer_any_recipient (state : State) (info : MessageInfo)
    (recipient : String) (h : info.sender = state.owner) :
    try_transfer (some state) info state.owner =
      (some state,
       .ok ⟨[], [("method", "try_transfer"), ("new owner", state.owner)]⟩) ∧
    (try_transfer (some state) info recipient).2 =
      .ok ⟨[], [("method", "try_transfer"), ("new owner", recipient)]⟩ := by
  constructor
  · simp only [try_transfer]
    rw [if_neg (by simp [h])]
  · simp only [try_transfer]
    rw [if_neg (by simp [h])]

/-- Witness for C10's theorem: a self-transfer and a transfer back to the
creator by the current owner. -/
theorem try_transfer_any_recipient_witness :
    try_transfer (some ⟨"creator", "someone", [⟨"BTC", 1⟩], [⟨"ETH", 40⟩], 100000⟩)
        ⟨"someone", []⟩ "someone" =
      (some ⟨"creator", "someone", [⟨"BTC", 1⟩], [⟨"ETH", 40⟩], 100000⟩,
       .ok ⟨[], [("method", "try_transfer"), ("new owner", "someone")]⟩) ∧
    (try_transfer (some ⟨"creator", "someone", [⟨"BTC", 1⟩], [⟨"ETH", 40⟩], 100000⟩)
        ⟨"someone", []⟩ "creator").2 =
      .ok ⟨[], [("method", "try_transfer"), ("new owner", "creator")]⟩ :=
  try_transfer_any_recipient ⟨"creator", "someone", [⟨"BTC", 1⟩], [⟨"ETH", 40⟩], 100000⟩
    ⟨"someone", []⟩ "creator" rfl
